import Mathlib

/-!
# StyleMart storefront script: cart, price parsing and checkout

A shallow embedding of `script.js`.  The browser state the script touches
(the `localStorage` slot, the toast element, pending timers, the location, the
badge and the cart / checkout page elements) is an explicit `World` record and
every handler is a function on it.

Modelling conventions

* JavaScript Numbers are exact: a finite Number is a rational (`ℚ`), quantities
  are integers (`Int`).  The rounding of IEEE doubles is not modelled.  `-0` and
  `+0` are one value; the script never tells them apart (`-0 || 0` is `0`,
  `(-0).toFixed(2)` is `"0.00"`).
* `Number.prototype.toFixed` falls back to `Number::toString` for magnitudes of
  at least `10^21`; that exponent rendering depends on the double and is taken
  as the parameter `numToStr`.
* `JSON.parse (JSON.stringify cart)` is the identity on carts, so the storage
  slot holds a cart when it holds parsable text.
* A handler that throws a `TypeError` stops before it writes anything, so it
  returns the world it was given.
-/

namespace StyleMart

/-! ## Numbers and strings -/

/-- JavaScript Number values: `NaN`, the two infinities, and the finite values. -/
inductive JSNumber where
  | nan
  | inf (negative : Bool)
  | fin (q : ℚ)
deriving DecidableEq

/-- The characters the regular expression `/[^0-9.-]+/g` keeps. -/
def isPriceChar (c : Char) : Bool := c.isDigit || c == '.' || c == '-'

/-- Value of a decimal digit character. -/
def digitValue (c : Char) : Nat := c.toNat - 48

/-- Mathematical value of a run of decimal digits. -/
def digitsValue (cs : List Char) : Nat := cs.foldl (fun a c => 10 * a + digitValue c) 0

/-- Scanner for `StrUnsignedDecimalLiteral` without exponent part: `D+`, `D+ . D*`, `. D+`.
Anything else is `NaN`. -/
def scanUnsigned (cs : List Char) : JSNumber :=
  let ip := cs.takeWhile Char.isDigit
  match cs.dropWhile Char.isDigit with
  | [] => if ip = [] then .nan else .fin (digitsValue ip)
  | c :: rest =>
    if c = '.' then
      let fp := rest.takeWhile Char.isDigit
      if rest.dropWhile Char.isDigit ≠ [] then .nan
      else if ip = [] ∧ fp = [] then .nan
      else .fin (digitsValue ip + (digitsValue fp : ℚ) / 10 ^ fp.length)
    else .nan

/-- The conversion `Number(s)` for a string `s` over digits, `.`, `-` and `+` (what is left after
the `replace` in `toNumberPrice`): the empty string is `0`, a signed decimal
literal is its value, everything else is `NaN`. -/
def jsNumber (cs : List Char) : JSNumber :=
  match cs with
  | [] => .fin 0
  | c :: rest =>
    if c = '-' then
      match scanUnsigned rest with
      | .fin q => .fin (-q)
      | r => r
    else if c = '+' then scanUnsigned rest
    else scanUnsigned (c :: rest)

/-- The function `toNumberPrice(str)`: `Number(String(str).replace(/[^0-9.-]+/g, "")) || 0`.
`NaN` and `0` are falsy, so `|| 0` turns them into `0`; the result is finite. -/
def toNumberPrice (str : String) : ℚ :=
  match jsNumber (str.data.filter isPriceChar) with
  | .fin q => q
  | .inf _ => 0
  | .nan => 0

/-- The digits `toFixed(2)` prints for the scaled integer `n`: `n` in decimal,
left-padded with zeros to three digits, with a `.` before the last two. -/
def fixedText (n : Nat) : String :=
  let m := Nat.toDigits 10 n
  let m := if m.length ≤ 2 then List.replicate (3 - m.length) '0' ++ m else m
  String.mk (m.take (m.length - 2)) ++ "." ++ String.mk (m.drop (m.length - 2))

/-- The method `Number.prototype.toFixed(2)`.  Non-finite values print as by `ToString`; a
negative value prints `-` and then its magnitude; a magnitude of `10^21` or more
prints as `numToStr`; otherwise `n` is the integer nearest to `100 * x` (the larger
one on a tie), printed in decimal, left-padded with zeros to three digits, with
a `.` before the last two. -/
def toFixed2 (numToStr : ℚ → String) (x : JSNumber) : String :=
  match x with
  | .nan => "NaN"
  | .inf false => "Infinity"
  | .inf true => "-Infinity"
  | .fin q =>
    let s := if q < 0 then "-" else ""
    let a := if q < 0 then -q else q
    if 10 ^ 21 ≤ a then s ++ numToStr a
    else s ++ fixedText ⌊a * 100 + 1 / 2⌋₊

/-- The function `formatPrice(n)`: a dollar sign and `Number(n).toFixed(2)`. -/
def formatPrice (numToStr : ℚ → String) (n : JSNumber) : String :=
  "$" ++ toFixed2 numToStr n

/-- White space and line terminators, as removed by `String.prototype.trim` and
skipped by `parseInt`. -/
def isJSWhiteSpace (c : Char) : Bool :=
  decide (c.toNat ∈ [0x9, 0xA, 0xB, 0xC, 0xD, 0x20, 0xA0, 0x1680, 0x2028, 0x2029,
    0x202F, 0x205F, 0x3000, 0xFEFF]) || (decide (0x2000 ≤ c.toNat) && decide (c.toNat ≤ 0x200A))

/-- The method `String.prototype.trim`. -/
def jsTrim (s : String) : String :=
  String.mk ((s.data.dropWhile isJSWhiteSpace).reverse.dropWhile isJSWhiteSpace).reverse

/-- Value of `c` as a digit of the given radix, if it is one. -/
def radixDigit? (radix : Nat) (c : Char) : Option Nat :=
  let v : Option Nat :=
    if c.isDigit then some (c.toNat - 48)
    else if 97 ≤ c.toNat ∧ c.toNat ≤ 122 then some (c.toNat - 87)
    else if 65 ≤ c.toNat ∧ c.toNat ≤ 90 then some (c.toNat - 55)
    else none
  v.filter (fun d => decide (d < radix))

/-- The function `parseInt(s)` with no radix argument; `none` stands for `NaN`.  Leading white
space is skipped, a sign is read, a `0x` / `0X` prefix switches to radix 16, and
the longest run of digits is the value. -/
def parseInt (s : String) : Option Int :=
  let cs := s.data.dropWhile isJSWhiteSpace
  let signed : Bool × List Char :=
    match cs with
    | '-' :: r => (true, r)
    | '+' :: r => (false, r)
    | _ => (false, cs)
  let based : Nat × List Char :=
    match signed.2 with
    | '0' :: 'x' :: r => (16, r)
    | '0' :: 'X' :: r => (16, r)
    | r => (10, r)
  let ds := (based.2.takeWhile (fun c => (radixDigit? based.1 c).isSome)).filterMap
    (radixDigit? based.1)
  if ds = [] then none
  else
    let v : Int := ds.foldl (fun a d => based.1 * a + d) 0
    some (if signed.1 then -v else v)

/-! ## Cart store -/

/-- A line item of the cart. -/
structure Item where
  name : String
  price : String
  image : String
  quantity : Int
deriving DecidableEq

/-- The cart: the array of line items. -/
abbrev Cart := List Item

/-- What `localStorage` holds under `CART_KEY`: nothing, the JSON text of a
cart, or text that `JSON.parse` rejects or parses to a falsy value. -/
inductive Slot where
  | absent
  | stored (cart : Cart)
  | garbage
deriving DecidableEq

/-- The function `getCart()`: `JSON.parse(localStorage.getItem(CART_KEY)) || []`, and `[]` when
parsing throws.  A missing key reads as `null`, which parses to `null`. -/
def getCart (slot : Slot) : Cart :=
  match slot with
  | .absent => []
  | .stored cart => cart
  | .garbage => []

/-- The function `setCart(cart)`: the slot is overwritten with the serialised cart. -/
def setCart (cart : Cart) : Slot := .stored cart

/-! ## Browser state -/

/-- The `#sm-toast` element. -/
structure Toast where
  text : String
  opacity : String
deriving DecidableEq

/-- What a pending timer does when it fires. -/
inductive Task where
  | toastFade
  | payment
  | redirect
deriving DecidableEq

/-- A pending `setTimeout`. -/
structure Timer where
  delay : Nat
  task : Task
deriving DecidableEq

/-- The `.cart-count` element: the number assigned to `textContent` and
`style.display`. -/
structure Badge where
  count : Int
  display : String
deriving DecidableEq

/-- One `.cart-item` row built by `renderCartPage`. -/
structure CartRow where
  image : String
  name : String
  price : String
  quantity : Int
  index : Nat
deriving DecidableEq

/-- One row built by `renderCheckoutSummary`: `name xquantity` and the subtotal. -/
structure SummaryRow where
  name : String
  quantity : Int
  subtotal : String
deriving DecidableEq

/-- The part of the browser the script reads and writes.  An element that is
not in the page is `none`. -/
structure World where
  slot : Slot
  toast : Option Toast
  timers : List Timer
  location : String
  badge : Option Badge
  cartItems : Option (List CartRow)
  cartTotal : Option String
  checkoutSummary : Option (List SummaryRow)
  checkoutTotal : Option String
deriving DecidableEq

/-- The function `flash(msg, time)`: the toast is created if needed, shows `msg`, the pending
fade (`t._out`) is cancelled and a new fade is scheduled after `time`. -/
def flash (msg : String) (time : Nat) (w : World) : World :=
  { w with
    toast := some { text := msg, opacity := "1" }
    timers := w.timers.filter (fun t => decide (t.task ≠ Task.toastFade)) ++
      [{ delay := time, task := Task.toastFade }] }

/-- The function `updateCartCount()`: nothing without a `.cart-count` element; otherwise the
sum of `quantity || 0` is shown, and the badge is hidden when the sum is `0`. -/
def updateCartCount (w : World) : World :=
  match w.badge with
  | none => w
  | some _ =>
    let total : Int :=
      (getCart w.slot).foldl (fun s i => s + (if i.quantity = 0 then 0 else i.quantity)) 0
    { w with badge := some { count := total, display := if total ≠ 0 then "inline-block" else "none" } }

/-- The function `renderCartPage()`: nothing unless both `.cart-items` and `.cart-summary h3`
exist; otherwise one pass over the cart accumulates the total and builds the
rows, and the total is written as `Total: ` and the formatted amount. -/
def renderCartPage (numToStr : ℚ → String) (w : World) : World :=
  match w.cartItems, w.cartTotal with
  | some _, some _ =>
    let acc : ℚ × List CartRow :=
      (getCart w.slot).enum.foldl
        (fun acc p =>
          (acc.1 + toNumberPrice p.2.price * (p.2.quantity : ℚ),
           acc.2 ++ [{ image := p.2.image, name := p.2.name, price := p.2.price,
                       quantity := p.2.quantity, index := p.1 }]))
        (0, [])
    { w with
      cartItems := some acc.2
      cartTotal := some ("Total: " ++ formatPrice numToStr (.fin acc.1)) }
  | _, _ => w

/-- The `.product` card around an add button: the text of its `h3`, of its
`.price` element and of its first `p`, and the `src` of its `img`, each `none`
when the element is missing. -/
structure Card where
  h3Text : Option String
  priceText : Option String
  pText : Option String
  imgSrc : Option String
deriving DecidableEq

/-- The operator `a || b` on an optional string: a missing or empty `a` gives `b`. -/
def orElseString (a : Option String) (b : String) : String :=
  match a with
  | some s => if s = "" then b else s
  | none => b

/-- The item name: `card.querySelector('h3')?.textContent?.trim() || 'Item'`. -/
def cardName (card : Card) : String := orElseString (card.h3Text.map jsTrim) "Item"

/-- The price text: `.price` text, else the first `p` text, else `'$0'`. -/
def cardPriceText (card : Card) : String :=
  orElseString card.priceText (orElseString card.pText "$0")

/-- The image: `card.querySelector('img')?.src || ''`. -/
def cardImage (card : Card) : String := orElseString card.imgSrc ""

/-- The effect of `existing.quantity += 1` on the array: the first item called
`name` has its quantity raised by one, in place. -/
def bumpFirst (name : String) : Cart → Cart
  | [] => []
  | it :: rest =>
    if it.name = name then { it with quantity := it.quantity + 1 } :: rest
    else it :: bumpFirst name rest

/-- Lines 31 to 34 on the array: `cart.find(i => i.name === name)`, then either
`existing.quantity += 1` or `cart.push({ name, price, image, quantity: 1 })`. -/
def addItem (cart : Cart) (name price image : String) : Cart :=
  match cart.find? (fun i => decide (i.name = name)) with
  | some _ => bumpFirst name cart
  | none => cart ++ [{ name := name, price := price, image := image, quantity := 1 }]

/-- The handler `handleAddToCartFromButton(btn)`: the name, price text and image are
read from the card, the item is merged into the stored cart, the cart is saved,
the toast is shown and the badge is updated. -/
def handleAddToCartFromButton (numToStr : ℚ → String) (w : World) (card : Card) : World :=
  let name := cardName card
  let priceText := cardPriceText card
  let price := formatPrice numToStr (.fin (toNumberPrice priceText))
  let img := cardImage card
  let cart := addItem (getCart w.slot) name price img
  let w := { w with slot := setCart cart }
  let w := flash (name ++ " added to cart") 1200 w
  updateCartCount w

/-! ## Cart page handlers -/

/-- The target of a cart page event: its tag name, whether it matches
`.remove-btn`, `Number(dataset.index)` and its `value`. -/
structure Target where
  tagName : String
  isRemoveBtn : Bool
  index : JSNumber
  value : String
deriving DecidableEq

/-- The operation `ToIntegerOrInfinity` followed by the clamping `splice` applies to its start
argument, for an array of length `len`. -/
def spliceStart (idx : JSNumber) (len : Nat) : Nat :=
  match idx with
  | .nan => 0
  | .inf true => 0
  | .inf false => len
  | .fin q =>
    let r : Int := if q < 0 then -⌊-q⌋ else ⌊q⌋
    if r < 0 then (len + r).toNat else min r.toNat len

/-- The call `cart.splice(idx, 1)`: the element at the start position is deleted when
there is one. -/
def splice1 (idx : JSNumber) (cart : Cart) : Cart :=
  cart.eraseIdx (spliceStart idx cart.length)

/-- The handler `cartRemoveHandler(e)`: nothing unless the target matches
`.remove-btn`; otherwise the element at the index is spliced out, the cart is
saved, the cart page is rendered and the badge is updated. -/
def cartRemoveHandler (numToStr : ℚ → String) (w : World) (target : Target) : World :=
  if !target.isRemoveBtn then w
  else
    let cart := splice1 target.index (getCart w.slot)
    let w := { w with slot := setCart cart }
    let w := renderCartPage numToStr w
    updateCartCount w

/-- The position `cart[idx]` reads: an integer index inside the array; any other
Number names no element. -/
def arrayIndex? (idx : JSNumber) (len : Nat) : Option Nat :=
  match idx with
  | .fin q => if q.den = 1 ∧ 0 ≤ q.num ∧ q.num.toNat < len then some q.num.toNat else none
  | _ => none

/-- The new quantity `Math.max(1, parseInt(value) || 1)`: `NaN` and `0` are falsy. -/
def quantityOfInput (value : String) : Int :=
  max 1 (match parseInt value with
    | none => 1
    | some n => if n = 0 then 1 else n)

/-- The handler `cartQuantityHandler(e)`: nothing unless the target is an `INPUT`.  When `cart[idx]` is `undefined` the assignment
throws and nothing is saved. -/
def cartQuantityHandler (numToStr : ℚ → String) (w : World) (target : Target) : World :=
  if target.tagName ≠ "INPUT" then w
  else
    let cart := getCart w.slot
    let val := quantityOfInput target.value
    match arrayIndex? target.index cart.length with
    | none => w
    | some i =>
      let cart := cart.modify (fun it => { it with quantity := val }) i
      let w := { w with slot := setCart cart }
      let w := renderCartPage numToStr w
      updateCartCount w

/-! ## Checkout -/

/-- The values of the checkout form fields. -/
structure Form where
  name : String
  email : String
  address : String
  payment : String
deriving DecidableEq

/-- The steps of the payment timer callback, in source order. -/
def paymentSteps : List (World → World) :=
  [ flash "✅ Order placed! Thank you." 2200,
    fun w => { w with slot := Slot.absent },
    updateCartCount,
    fun w => { w with timers := w.timers ++ [{ delay := 1400, task := Task.redirect }] } ]

/-- Runs steps one after the other. -/
def runSteps (steps : List (World → World)) (w : World) : World :=
  steps.foldl (fun w step => step w) w

/-- The callback scheduled by a valid checkout submission. -/
def paymentCallback (w : World) : World := runSteps paymentSteps w

/-- What a submit event leaves behind: whether the default action was
suppressed, and the world. -/
structure SubmitOutcome where
  defaultPrevented : Bool
  world : World
deriving DecidableEq

/-- The handler `handleCheckoutSubmit(e)`: the default action is suppressed, the
three required fields are trimmed; if one is empty the toast asks for them and
the handler returns, otherwise the processing toast is shown and the payment
callback is scheduled after 900. -/
def handleCheckoutSubmit (w : World) (form : Form) : SubmitOutcome :=
  let name := jsTrim form.name
  let email := jsTrim form.email
  let address := jsTrim form.address
  if name = "" ∨ email = "" ∨ address = "" then
    { defaultPrevented := true, world := flash "Please fill in required fields" 1200 w }
  else
    let w := flash "Processing payment..." 1000 w
    { defaultPrevented := true
      world := { w with timers := w.timers ++ [{ delay := 900, task := Task.payment }] } }

/-! ## Timers -/

/-- What a timer does when it fires. -/
def fire (task : Task) (w : World) : World :=
  match task with
  | .toastFade => { w with toast := w.toast.map (fun t => { t with opacity := "0" }) }
  | .payment => paymentCallback w
  | .redirect => { w with location := "index.html" }

/-- The pending timer at position `i` fires and is no longer pending. -/
def fireNth (i : Nat) (w : World) : World :=
  match w.timers.get? i with
  | none => w
  | some t => fire t.task { w with timers := w.timers.eraseIdx i }

/-- Pending timers fire in the given order of positions. -/
def fireAll (schedule : List Nat) (w : World) : World :=
  schedule.foldl (fun w i => fireNth i w) w

/-! ## Runs of the cart operations -/

/-- The three ways the script changes the cart. -/
inductive Op where
  | add (card : Card)
  | remove (target : Target)
  | setQuantity (target : Target)

/-- One cart operation. -/
def applyOp (numToStr : ℚ → String) (w : World) (op : Op) : World :=
  match op with
  | .add card => handleAddToCartFromButton numToStr w card
  | .remove target => cartRemoveHandler numToStr w target
  | .setQuantity target => cartQuantityHandler numToStr w target

/-- A sequence of cart operations. -/
def runOps (numToStr : ℚ → String) (w : World) (ops : List Op) : World :=
  ops.foldl (applyOp numToStr) w

/-- A world whose storage has no cart yet and whose page has no script-made
elements. -/
def emptyWorld : World :=
  { slot := Slot.absent, toast := none, timers := [], location := "cart.html",
    badge := none, cartItems := none, cartTotal := none,
    checkoutSummary := none, checkoutTotal := none }

/-- A world whose storage holds the given cart and whose page has the cart and
checkout elements and the badge, all still empty. -/
def pageWith (cart : Cart) : World :=
  { slot := Slot.stored cart, toast := none, timers := [], location := "cart.html",
    badge := some { count := 0, display := "none" },
    cartItems := some [], cartTotal := some "",
    checkoutSummary := some [], checkoutTotal := some "" }

/-! ## Definitions that follow the specification's words -/

/-- The pending redirect timers of a world. -/
def redirectTimers (w : World) : List Timer :=
  w.timers.filter (fun t => decide (t.task = Task.redirect))

/-- The pending payment and redirect timers of a world. -/
def paymentOrRedirectTimers (w : World) : List Timer :=
  w.timers.filter (fun t => decide (t.task ≠ Task.toastFade))

/-- A required field is empty after trimming white space. -/
def missingRequired (form : Form) : Prop :=
  jsTrim form.name = "" ∨ jsTrim form.email = "" ∨ jsTrim form.address = ""

/-- The subtotal of a line: parsed price times quantity. -/
def lineSubtotal (it : Item) : ℚ := toNumberPrice it.price * (it.quantity : ℚ)

/-- The sum over all items of the line subtotals. -/
def cartSum (cart : Cart) : ℚ := (cart.map lineSubtotal).sum


/-- The names of the items of a cart, in cart order. -/
def cartNames (cart : Cart) : List String := cart.map (fun it => it.name)

/-- One more operation of a run: an add-to-cart of a name not added before puts
the name last. -/
def firstAddStep (acc : List String) (op : Op) : List String :=
  match op with
  | .add card => if cardName card ∈ acc then acc else acc ++ [cardName card]
  | _ => acc

/-- The names a run adds to the cart, in the order in which they were first added. -/
def firstAdds (ops : List Op) : List String := ops.foldl firstAddStep []

/-- The run of the four operations: add "A", add "B", remove the first row,
add "A". -/
def readdRun : List Op :=
  [ Op.add { h3Text := some "A", priceText := some "$1", pText := none, imgSrc := none },
    Op.add { h3Text := some "B", priceText := some "$2", pText := none, imgSrc := none },
    Op.remove { tagName := "BUTTON", isRemoveBtn := true, index := JSNumber.fin 0, value := "" },
    Op.add { h3Text := some "A", priceText := some "$1", pText := none, imgSrc := none } ]

@[simp] theorem getCart_setCart (cart : Cart) : getCart (setCart cart) = cart := rfl

@[simp] theorem flash_slot (msg : String) (time : Nat) (w : World) :
    (flash msg time w).slot = w.slot := rfl

@[simp] theorem updateCartCount_slot (w : World) : (updateCartCount w).slot = w.slot := by
  unfold updateCartCount
  cases w.badge <;> rfl

@[simp] theorem renderCartPage_slot (numToStr : ℚ → String) (w : World) :
    (renderCartPage numToStr w).slot = w.slot := by
  unfold renderCartPage
  split <;> rfl

theorem handleAdd_slot (numToStr : ℚ → String) (w : World) (card : Card) :
    (handleAddToCartFromButton numToStr w card).slot =
      Slot.stored (addItem (getCart w.slot) (cardName card)
        (formatPrice numToStr (.fin (toNumberPrice (cardPriceText card)))) (cardImage card)) := by
  simp [handleAddToCartFromButton, setCart]

theorem remove_slot (numToStr : ℚ → String) (w : World) (target : Target) :
    (cartRemoveHandler numToStr w target).slot =
      if target.isRemoveBtn = true then Slot.stored (splice1 target.index (getCart w.slot))
      else w.slot := by
  unfold cartRemoveHandler
  cases target.isRemoveBtn <;> simp [setCart]

theorem quantity_slot (numToStr : ℚ → String) (w : World) (target : Target) :
    (cartQuantityHandler numToStr w target).slot =
      if target.tagName = "INPUT" then
        match arrayIndex? target.index (getCart w.slot).length with
        | none => w.slot
        | some i => Slot.stored ((getCart w.slot).modify
            (fun it => { it with quantity := quantityOfInput target.value }) i)
      else w.slot := by
  unfold cartQuantityHandler
  by_cases h : target.tagName = "INPUT"
  · simp only [h, ne_eq, not_true_eq_false, if_false, if_true]
    cases arrayIndex? target.index (getCart w.slot).length <;> simp [setCart]
  · simp [h]

theorem find?_none_iff (cart : Cart) (name : String) :
    cart.find? (fun i => decide (i.name = name)) = none ↔ ∀ it ∈ cart, it.name ≠ name := by
  simp [List.find?_eq_none]

theorem cartNames_bumpFirst (name : String) (cart : Cart) :
    cartNames (bumpFirst name cart) = cartNames cart := by
  induction cart with
  | nil => rfl
  | cons x cart ih =>
    unfold bumpFirst
    by_cases hn : x.name = name
    · rw [if_pos hn]
      rfl
    · rw [if_neg hn]
      show x.name :: cartNames (bumpFirst name cart) = x.name :: cartNames cart
      rw [ih]

theorem mem_cartNames_iff (cart : Cart) (name : String) :
    name ∈ cartNames cart ↔ ¬ ∀ it ∈ cart, it.name ≠ name := by
  unfold cartNames
  rw [List.mem_map]
  push_neg
  rfl

theorem cartNames_addItem (cart : Cart) (name price image : String) :
    cartNames (addItem cart name price image) =
      if name ∈ cartNames cart then cartNames cart else cartNames cart ++ [name] := by
  unfold addItem
  cases hf : cart.find? (fun i => decide (i.name = name)) with
  | some _ =>
    have hin : name ∈ cartNames cart := by
      rw [mem_cartNames_iff]
      intro hall
      rw [(find?_none_iff cart name).mpr hall] at hf
      cases hf
    rw [if_pos hin]
    exact cartNames_bumpFirst name cart
  | none =>
    have hout : ¬ name ∈ cartNames cart := by
      rw [mem_cartNames_iff, not_not]
      exact (find?_none_iff cart name).mp hf
    rw [if_neg hout]
    simp [cartNames]

theorem cartNames_eraseIdx (cart : Cart) :
    ∀ k : Nat, cartNames (cart.eraseIdx k) = (cartNames cart).eraseIdx k := by
  induction cart with
  | nil => intro k; rfl
  | cons x cart ih =>
    intro k
    cases k with
    | zero => rfl
    | succ k =>
      show x.name :: cartNames (cart.eraseIdx k) = x.name :: (cartNames cart).eraseIdx k
      rw [ih]

theorem cartNames_modify (v : Int) (cart : Cart) :
    ∀ i : Nat, cartNames (cart.modify (fun it => { it with quantity := v }) i) =
      cartNames cart := by
  induction cart with
  | nil => intro i; simp
  | cons x cart ih =>
    intro i
    cases i with
    | zero => rw [List.modify_zero_cons]; rfl
    | succ i =>
      rw [List.modify_succ_cons]
      show x.name :: cartNames (cart.modify _ i) = x.name :: cartNames cart
      rw [ih]

theorem cartNames_add (numToStr : ℚ → String) (w : World) (card : Card) :
    cartNames (getCart (handleAddToCartFromButton numToStr w card).slot) =
      if cardName card ∈ cartNames (getCart w.slot) then cartNames (getCart w.slot)
      else cartNames (getCart w.slot) ++ [cardName card] := by
  rw [handleAdd_slot]
  exact cartNames_addItem _ _ _ _

theorem cartNames_remove (numToStr : ℚ → String) (w : World) (target : Target) :
    (cartNames (getCart (cartRemoveHandler numToStr w target).slot)).Sublist
      (cartNames (getCart w.slot)) := by
  rw [remove_slot]
  by_cases hb : target.isRemoveBtn = true
  · rw [if_pos hb]
    show (cartNames ((getCart w.slot).eraseIdx _)).Sublist _
    rw [cartNames_eraseIdx]
    exact List.eraseIdx_sublist _ _
  · rw [if_neg hb]

theorem cartNames_quantity (numToStr : ℚ → String) (w : World) (target : Target) :
    cartNames (getCart (cartQuantityHandler numToStr w target).slot) =
      cartNames (getCart w.slot) := by
  rw [quantity_slot]
  by_cases hb : target.tagName = "INPUT"
  · rw [if_pos hb]
    cases arrayIndex? target.index (getCart w.slot).length with
    | none => rfl
    | some i => exact cartNames_modify _ _ i
  · rw [if_neg hb]

theorem applyOp_nodup (numToStr : ℚ → String) (w : World) (op : Op)
    (h : (cartNames (getCart w.slot)).Nodup) :
    (cartNames (getCart (applyOp numToStr w op).slot)).Nodup := by
  cases op with
  | add card =>
    show (cartNames (getCart (handleAddToCartFromButton numToStr w card).slot)).Nodup
    rw [cartNames_add]
    by_cases hin : cardName card ∈ cartNames (getCart w.slot)
    · rw [if_pos hin]
      exact h
    · rw [if_neg hin]
      rw [List.nodup_append]
      refine ⟨h, List.nodup_singleton _, ?_⟩
      intro a ha hb
      rw [List.mem_singleton] at hb
      rw [hb] at ha
      exact hin ha
  | remove target => exact h.sublist (cartNames_remove numToStr w target)
  | setQuantity target =>
    show (cartNames (getCart (cartQuantityHandler numToStr w target).slot)).Nodup
    rw [cartNames_quantity]
    exact h

theorem runOps_nodup (numToStr : ℚ → String) (ops : List Op) :
    ∀ w : World, (cartNames (getCart w.slot)).Nodup →
      (cartNames (getCart (runOps numToStr w ops).slot)).Nodup := by
  induction ops with
  | nil => intro w h; exact h
  | cons op ops ih =>
    intro w h
    exact ih (applyOp numToStr w op) (applyOp_nodup numToStr w op h)

theorem runOps_firstAdds (numToStr : ℚ → String) (ops : List Op) :
    ∀ w : World, (∀ op ∈ ops, ∀ t : Target, op ≠ Op.remove t) →
      cartNames (getCart (runOps numToStr w ops).slot) =
        ops.foldl firstAddStep (cartNames (getCart w.slot)) := by
  induction ops with
  | nil => intro w _; rfl
  | cons op ops ih =>
    intro w h
    show cartNames (getCart (runOps numToStr (applyOp numToStr w op) ops).slot) =
      ops.foldl firstAddStep (firstAddStep (cartNames (getCart w.slot)) op)
    rw [ih (applyOp numToStr w op) (fun o ho => h o (List.mem_cons_of_mem _ ho))]
    congr 1
    cases op with
    | add card => exact cartNames_add numToStr w card
    | remove target => exact absurd rfl (h _ (List.mem_cons_self _ _) target)
    | setQuantity target => exact cartNames_quantity numToStr w target

/-- C3, as amended. If no two items of the stored cart share a name, the same
holds after any add-to-cart, any removal and any quantity edit; hence every cart
reached from an empty cart has pairwise distinct item names. An add-to-cart
leaves the names in place and puts a name that was not in the cart last, a
removal leaves the remaining names in their order, a quantity edit leaves the
names as they were; and in a run without removals the items are in the order
in which their names were first added. -/
theorem names_stay_distinct_and_ordered (numToStr : ℚ → String) :
    (∀ (w : World) (op : Op), (cartNames (getCart w.slot)).Nodup →
      (cartNames (getCart (applyOp numToStr w op).slot)).Nodup) ∧
    (∀ (w : World) (ops : List Op), getCart w.slot = [] →
      (cartNames (getCart (runOps numToStr w ops).slot)).Nodup) ∧
    (∀ (w : World) (card : Card),
      cartNames (getCart (handleAddToCartFromButton numToStr w card).slot) =
        if cardName card ∈ cartNames (getCart w.slot) then cartNames (getCart w.slot)
        else cartNames (getCart w.slot) ++ [cardName card]) ∧
    (∀ (w : World) (target : Target),
      (cartNames (getCart (cartRemoveHandler numToStr w target).slot)).Sublist
        (cartNames (getCart w.slot))) ∧
    (∀ (w : World) (target : Target),
      cartNames (getCart (cartQuantityHandler numToStr w target).slot) =
        cartNames (getCart w.slot)) ∧
    (∀ (w : World) (ops : List Op), getCart w.slot = [] →
      (∀ op ∈ ops, ∀ t : Target, op ≠ Op.remove t) →
      cartNames (getCart (runOps numToStr w ops).slot) = firstAdds ops) := by
  refine ⟨applyOp_nodup numToStr, ?_, cartNames_add numToStr, cartNames_remove numToStr,
    cartNames_quantity numToStr, ?_⟩
  · intro w ops hempty
    apply runOps_nodup
    rw [hempty]
    exact List.nodup_nil
  · intro w ops hempty hno
    rw [runOps_firstAdds numToStr ops w hno, hempty]
    rfl

/-- C3, as amended, at the run that adds "A", adds "B" and adds "A" again: the
names of the resulting cart are "A", "B", the order of first addition. -/
theorem names_stay_distinct_and_ordered_witness :
    cartNames (getCart (runOps (fun _ => "") emptyWorld (readdRun.take 2 ++ readdRun.drop 3)).slot) =
      firstAdds (readdRun.take 2 ++ readdRun.drop 3) ∧
    firstAdds (readdRun.take 2 ++ readdRun.drop 3) = ["A", "B"] :=
  ⟨(names_stay_distinct_and_ordered (fun _ => "")).2.2.2.2.2 emptyWorld
      (readdRun.take 2 ++ readdRun.drop 3) rfl (by
        intro op hop t
        simp only [readdRun, List.take, List.drop, List.cons_append, List.nil_append,
          List.mem_cons, List.mem_singleton] at hop
        rcases hop with h | h | h | h
        · rw [h]; intro hx; cases hx
        · rw [h]; intro hx; cases hx
        · rw [h]; intro hx; cases hx
        · cases h),
    by with_unfolding_all decide⟩

/-- C3 fails as stated. After adding "A", adding "B", removing the first row and
adding "A" again, the cart holds "B" and then "A", while the order in which the
names were first added is "A" and then "B". -/
theorem first_added_order_counterexample :
    (∀ numToStr : ℚ → String,
      cartNames (getCart (runOps numToStr emptyWorld readdRun).slot) = ["B", "A"]) ∧
    firstAdds readdRun = ["A", "B"] ∧
    ¬ List.Sublist ["B", "A"] ["A", "B"] := by
  refine ⟨fun numToStr => ?_, ?_, ?_⟩
  · with_unfolding_all rfl
  · with_unfolding_all decide
  · decide

/-! ## Quantity edit and removal -/

theorem eraseIdx_split (pre : Cart) (it : Item) (post : Cart) :
    (pre ++ it :: post).eraseIdx pre.length = pre ++ post := by
  induction pre with
  | nil => rfl
  | cons x pre ih =>
    show (x :: (pre ++ it :: post)).eraseIdx (pre.length + 1) = x :: (pre ++ post)
    rw [List.eraseIdx_cons_succ, ih]

theorem spliceStart_natCast (k len : Nat) (h : k < len) :
    spliceStart (.fin (k : ℚ)) len = k := by
  have h0 : ¬ ((k : ℚ) < 0) := not_lt.mpr (Nat.cast_nonneg k)
  simp only [spliceStart, if_neg h0, Int.floor_natCast]
  have h1 : ¬ ((k : Int) < 0) := by omega
  rw [if_neg h1]
  simp only [Int.toNat_ofNat]
  omega

@[simp] theorem updateCartCount_cartTotal (w : World) :
    (updateCartCount w).cartTotal = w.cartTotal := by
  unfold updateCartCount
  cases w.badge <;> rfl

theorem foldl_cart_total (l : List (Nat × Item)) :
    ∀ acc : ℚ × List CartRow,
      (l.foldl
        (fun acc p =>
          (acc.1 + toNumberPrice p.2.price * (p.2.quantity : ℚ),
           acc.2 ++ [({ image := p.2.image, name := p.2.name, price := p.2.price,
                        quantity := p.2.quantity, index := p.1 } : CartRow)]))
        acc).1 = acc.1 + cartSum (l.map Prod.snd) := by
  induction l with
  | nil => intro acc; simp [cartSum]
  | cons p l ih =>
    intro acc
    rw [List.foldl_cons, ih]
    simp only [cartSum, lineSubtotal, List.map_cons, List.sum_cons]
    ring

theorem renderCartPage_total (numToStr : ℚ → String) (w : World) (rows : List CartRow)
    (t : String) (hrows : w.cartItems = some rows) (ht : w.cartTotal = some t) :
    (renderCartPage numToStr w).cartTotal =
      some ("Total: " ++ formatPrice numToStr (.fin (cartSum (getCart w.slot)))) := by
  unfold renderCartPage
  rw [hrows, ht]
  simp only
  rw [foldl_cart_total, List.enum_map_snd, zero_add]

/-- C5. For every stored cart `pre ++ it :: post` and every click on the remove
button whose index is the position of `it`, `cartRemoveHandler` saves `pre ++ post`:
the item is gone, the others are unchanged and in the same order, and the cart is
one shorter. When `it` was the only item the saved cart is empty, and a cart page
that has its elements then shows "Total: $0.00". -/
theorem removal_deletes_the_indexed_item (numToStr : ℚ → String) (w : World) (target : Target)
    (pre : Cart) (it : Item) (post : Cart)
    (hbtn : target.isRemoveBtn = true)
    (hcart : getCart w.slot = pre ++ it :: post)
    (hidx : target.index = .fin (pre.length : ℚ)) :
    (cartRemoveHandler numToStr w target).slot = Slot.stored (pre ++ post) ∧
    (getCart (cartRemoveHandler numToStr w target).slot).length + 1 = (getCart w.slot).length ∧
    (pre = [] → post = [] →
      getCart (cartRemoveHandler numToStr w target).slot = [] ∧
      ∀ (rows : List CartRow) (t : String), w.cartItems = some rows → w.cartTotal = some t →
        (cartRemoveHandler numToStr w target).cartTotal = some "Total: $0.00") := by
  have hslot : (cartRemoveHandler numToStr w target).slot = Slot.stored (pre ++ post) := by
    rw [remove_slot, if_pos hbtn, hidx, hcart]
    unfold splice1
    rw [spliceStart_natCast pre.length _ (by simp), eraseIdx_split]
  refine ⟨hslot, ?_, ?_⟩
  · rw [hslot, hcart]
    simp [getCart]
    omega
  · intro hpre hpost
    rw [hslot, hpre, hpost]
    refine ⟨rfl, ?_⟩
    intro rows t hrows ht
    have hsplice : splice1 target.index (getCart w.slot) = [] := by
      rw [hidx, hcart]
      unfold splice1
      rw [spliceStart_natCast pre.length _ (by simp), eraseIdx_split, hpre, hpost]
      rfl
    unfold cartRemoveHandler
    simp only [hbtn, Bool.not_true, Bool.false_eq_true, if_false, updateCartCount_cartTotal, hsplice]
    rw [renderCartPage_total numToStr { w with slot := setCart [] } rows t hrows ht]
    show some ("Total: " ++ formatPrice numToStr (.fin (cartSum []))) = _
    have : formatPrice numToStr (.fin (cartSum [])) = "$0.00" := by with_unfolding_all rfl
    rw [this]
    rfl

/-- C5, on a cart page whose stored cart holds the single item "Cap": a click on
the remove button of row 0 saves the empty cart and the page shows
"Total: $0.00". -/
theorem removal_deletes_the_indexed_item_witness :
    (cartRemoveHandler (fun _ => "")
      (pageWith [{ name := "Cap", price := "$7.50", image := "", quantity := 4 }])
      { tagName := "BUTTON", isRemoveBtn := true, index := .fin ((0 : Nat) : ℚ),
        value := "" }).slot = Slot.stored [] ∧
    (cartRemoveHandler (fun _ => "")
      (pageWith [{ name := "Cap", price := "$7.50", image := "", quantity := 4 }])
      { tagName := "BUTTON", isRemoveBtn := true, index := .fin ((0 : Nat) : ℚ),
        value := "" }).cartTotal = some "Total: $0.00" := by
  have h := removal_deletes_the_indexed_item (fun _ => "")
    (pageWith [{ name := "Cap", price := "$7.50", image := "", quantity := 4 }])
    { tagName := "BUTTON", isRemoveBtn := true, index := .fin ((0 : Nat) : ℚ), value := "" }
    [] { name := "Cap", price := "$7.50", image := "", quantity := 4 } [] rfl rfl rfl
  exact ⟨h.1, (h.2.2 rfl rfl).2 [] "" rfl rfl⟩

/-! ## Checkout -/

theorem fireNth_fades (i : Nat) (w : World) (h : ∀ t ∈ w.timers, t.task = Task.toastFade) :
    (fireNth i w).slot = w.slot ∧ (fireNth i w).location = w.location ∧
      ∀ t ∈ (fireNth i w).timers, t.task = Task.toastFade := by
  unfold fireNth
  cases hget : w.timers.get? i with
  | none => exact ⟨rfl, rfl, h⟩
  | some t =>
    have ht : t.task = Task.toastFade := h t (List.get?_mem hget)
    simp only [ht, fire]
    refine ⟨trivial, trivial, ?_⟩
    intro u hu
    exact h u (List.mem_of_mem_eraseIdx hu)

theorem fireAll_fades (schedule : List Nat) :
    ∀ w : World, (∀ t ∈ w.timers, t.task = Task.toastFade) →
      (fireAll schedule w).slot = w.slot ∧ (fireAll schedule w).location = w.location := by
  induction schedule with
  | nil => intro w _; exact ⟨rfl, rfl⟩
  | cons i schedule ih =>
    intro w h
    obtain ⟨h1, h2, h3⟩ := fireNth_fades i w h
    obtain ⟨h4, h5⟩ := ih (fireNth i w) h3
    exact ⟨by rw [← h1]; exact h4, by rw [← h2]; exact h5⟩

theorem flash_fades (msg : String) (time : Nat) (w : World)
    (h : ∀ t ∈ w.timers, t.task = Task.toastFade) :
    ∀ t ∈ (flash msg time w).timers, t.task = Task.toastFade := by
  intro t ht
  simp only [flash, List.mem_append, List.mem_filter, List.mem_singleton] at ht
  rcases ht with ht | ht
  · exact h t ht.1
  · rw [ht]

theorem filter_not_fade_flash (msg : String) (time : Nat) (w : World) :
    paymentOrRedirectTimers (flash msg time w) = paymentOrRedirectTimers w := by
  simp [paymentOrRedirectTimers, flash, List.filter_append, List.filter_filter]

theorem redirectTimers_flash (msg : String) (time : Nat) (w : World) :
    redirectTimers (flash msg time w) = redirectTimers w := by
  simp only [redirectTimers, flash, List.filter_append, List.filter_filter]
  have : (fun t : Timer => decide (t.task = Task.redirect) && decide (t.task ≠ Task.toastFade)) =
      fun t : Timer => decide (t.task = Task.redirect) := by
    funext t
    cases ht : t.task <;> simp
  rw [this]
  simp

@[simp] theorem updateCartCount_timers (w : World) : (updateCartCount w).timers = w.timers := by
  unfold updateCartCount
  cases w.badge <;> rfl

theorem updateCartCount_absent (w : World) (h : w.slot = Slot.absent) :
    (updateCartCount w).badge = w.badge.map (fun _ => { count := 0, display := "none" }) := by
  unfold updateCartCount
  cases hb : w.badge with
  | none => simp [hb]
  | some b => simp [h, getCart]

/-- C9. For every submission in which the name, the email or the address is empty
after trimming white space, `handleCheckoutSubmit` suppresses the default action,
shows "Please fill in required fields", leaves the storage slot and the location
as they were, and schedules nothing but the fade of the toast: the pending payment
and redirect timers are those that were pending before. If only toast fades were
pending before, then whatever pending timers fire afterwards, in whatever order,
the location and the slot stay as they were. For every submission in which the
three fields are non-empty after trimming, the submission is accepted: the toast
shows "Processing payment...", the payment timer is scheduled at 900, and the
outcome does not depend on the payment value. A form whose address is only
blanks is rejected. -/
theorem checkout_validation_is_side_effect_free (w : World) (form : Form) :
    (missingRequired form →
      (handleCheckoutSubmit w form).defaultPrevented = true ∧
      (handleCheckoutSubmit w form).world.toast =
        some { text := "Please fill in required fields", opacity := "1" } ∧
      (handleCheckoutSubmit w form).world.slot = w.slot ∧
      (handleCheckoutSubmit w form).world.location = w.location ∧
      paymentOrRedirectTimers (handleCheckoutSubmit w form).world = paymentOrRedirectTimers w ∧
      ((∀ t ∈ w.timers, t.task = Task.toastFade) → ∀ schedule : List Nat,
        (fireAll schedule (handleCheckoutSubmit w form).world).location = w.location ∧
        (fireAll schedule (handleCheckoutSubmit w form).world).slot = w.slot)) ∧
    (¬ missingRequired form →
      (handleCheckoutSubmit w form).defaultPrevented = true ∧
      (handleCheckoutSubmit w form).world.toast =
        some { text := "Processing payment...", opacity := "1" } ∧
      (handleCheckoutSubmit w form).world.slot = w.slot ∧
      paymentOrRedirectTimers (handleCheckoutSubmit w form).world =
        paymentOrRedirectTimers w ++ [{ delay := 900, task := Task.payment }] ∧
      ∀ payment : String,
        handleCheckoutSubmit w { form with payment := payment } = handleCheckoutSubmit w form) ∧
    missingRequired { name := "Ada", email := "ada@example.org", address := "   ",
                      payment := "card" } := by
  refine ⟨?_, ?_, ?_⟩
  · intro hmiss
    have hout : handleCheckoutSubmit w form =
        { defaultPrevented := true, world := flash "Please fill in required fields" 1200 w } := by
      unfold handleCheckoutSubmit
      unfold missingRequired at hmiss
      simp only [if_pos hmiss]
    rw [hout]
    refine ⟨rfl, rfl, rfl, rfl, filter_not_fade_flash _ _ w, ?_⟩
    intro hfades schedule
    have := fireAll_fades schedule (flash "Please fill in required fields" 1200 w)
      (flash_fades _ _ w hfades)
    exact ⟨this.2, this.1⟩
  · intro hok
    have hout : ∀ f : Form, ¬ missingRequired f → handleCheckoutSubmit w f =
        { defaultPrevented := true
          world := { flash "Processing payment..." 1000 w with
            timers := (flash "Processing payment..." 1000 w).timers ++
              [{ delay := 900, task := Task.payment }] } } := by
      intro f hf
      unfold handleCheckoutSubmit
      unfold missingRequired at hf
      simp only [if_neg hf]
    rw [hout form hok]
    refine ⟨rfl, rfl, rfl, ?_, ?_⟩
    · have h1 := filter_not_fade_flash "Processing payment..." 1000 w
      simp only [paymentOrRedirectTimers] at h1 ⊢
      rw [List.filter_append, h1]
      rfl
    · intro payment
      exact hout { form with payment := payment } hok
  · right
    right
    decide

/-- C9, at a form whose address is only blanks, submitted on a page where
nothing is pending: the slot keeps its cart, the toast asks for the required
fields, and after the scheduled fade has fired the location is unchanged. -/
theorem checkout_validation_is_side_effect_free_witness :
    (handleCheckoutSubmit
      (pageWith [{ name := "Cap", price := "$7.50", image := "", quantity := 4 }])
      { name := "Ada", email := "ada@example.org", address := "   ", payment := "card" }).world.slot =
      Slot.stored [{ name := "Cap", price := "$7.50", image := "", quantity := 4 }] ∧
    (fireAll [0] (handleCheckoutSubmit
      (pageWith [{ name := "Cap", price := "$7.50", image := "", quantity := 4 }])
      { name := "Ada", email := "ada@example.org", address := "   ",
        payment := "card" }).world).location = "cart.html" := by
  have h := (checkout_validation_is_side_effect_free
    (pageWith [{ name := "Cap", price := "$7.50", image := "", quantity := 4 }])
    { name := "Ada", email := "ada@example.org", address := "   ", payment := "card" }).1
    (Or.inr (Or.inr (by decide)))
  exact ⟨h.2.2.1, (h.2.2.2.2.2 (by intro t ht; cases ht) [0]).1⟩

/-- C10. For every world and every submission whose name, email and address are
non-empty after trimming, `handleCheckoutSubmit` leaves the slot as it was and
schedules the payment timer at 900 as the last pending timer. When that timer
fires, in whatever world, the slot no longer holds the cart key, `getCart` returns
the empty cart, a badge that is in the page shows 0 and is hidden, and the
redirect timer is pending at 1400. Inside the callback the redirect is scheduled
after the clearing: up to the third step no redirect timer has been added, and
from the second step on the slot is absent. -/
theorem successful_checkout_clears_the_cart (w : World) (form : Form)
    (hvalid : ¬ missingRequired form) :
    (handleCheckoutSubmit w form).world.slot = w.slot ∧
    (handleCheckoutSubmit w form).world.timers.get?
        ((handleCheckoutSubmit w form).world.timers.length - 1) =
      some { delay := 900, task := Task.payment } ∧
    (fireNth ((handleCheckoutSubmit w form).world.timers.length - 1)
        (handleCheckoutSubmit w form).world).slot = Slot.absent ∧
    (∀ v : World,
      (fire Task.payment v).slot = Slot.absent ∧
      getCart (fire Task.payment v).slot = [] ∧
      (fire Task.payment v).badge = v.badge.map (fun _ => { count := 0, display := "none" }) ∧
      redirectTimers (fire Task.payment v) =
        redirectTimers v ++ [{ delay := 1400, task := Task.redirect }] ∧
      (∀ k : Nat, k ≤ 3 → redirectTimers (runSteps (paymentSteps.take k) v) = redirectTimers v) ∧
      (∀ k : Nat, 2 ≤ k → (runSteps (paymentSteps.take k) v).slot = Slot.absent)) := by
  have hout : handleCheckoutSubmit w form =
      { defaultPrevented := true
        world := { flash "Processing payment..." 1000 w with
          timers := (flash "Processing payment..." 1000 w).timers ++
            [{ delay := 900, task := Task.payment }] } } := by
    unfold handleCheckoutSubmit
    unfold missingRequired at hvalid
    simp only [if_neg hvalid]
  have hfire : ∀ v : World, fire Task.payment v =
      { updateCartCount { flash "✅ Order placed! Thank you." 2200 v with slot := Slot.absent } with
        timers := (flash "✅ Order placed! Thank you." 2200 v).timers ++
          [{ delay := 1400, task := Task.redirect }] } := by
    intro v
    simp [fire, paymentCallback, paymentSteps, runSteps]
  have hsteps : ∀ (v : World) (k : Nat), 2 ≤ k →
      (runSteps (paymentSteps.take k) v).slot = Slot.absent := by
    intro v k hk
    match k, hk with
    | 2, _ => rfl
    | 3, _ => simp [paymentSteps, runSteps]
    | (n + 4), _ => simp [paymentSteps, runSteps]
  refine ⟨?_, ?_, ?_, ?_⟩
  · rw [hout]
    rfl
  · rw [hout]
    simp
  · rw [hout]
    simp only [fireNth, List.length_append, List.length_singleton, Nat.add_sub_cancel]
    rw [List.get?_eq_getElem?, List.getElem?_append_right (le_refl _)]
    simp only [Nat.sub_self, List.getElem?_cons_zero]
    rw [hfire]
    simp
  · intro v
    refine ⟨?_, ?_, ?_, ?_, ?_, hsteps v⟩
    · rw [hfire]
      simp
    · rw [hfire]
      simp [getCart]
    · rw [hfire]
      show (updateCartCount _).badge = _
      rw [updateCartCount_absent _ rfl]
      rfl
    · rw [hfire]
      have h1 := redirectTimers_flash "✅ Order placed! Thank you." 2200 v
      simp only [redirectTimers, updateCartCount_timers] at h1 ⊢
      rw [List.filter_append, h1]
      rfl
    · intro k hk
      have h1 := redirectTimers_flash "✅ Order placed! Thank you." 2200 v
      match k, hk with
      | 0, _ => rfl
      | 1, _ => exact h1
      | 2, _ => exact h1
      | 3, _ =>
        simp only [redirectTimers] at h1 ⊢
        simp only [paymentSteps, runSteps, List.take, List.foldl_cons, List.foldl_nil,
          updateCartCount_timers]
        exact h1

/-- C10, at a filled-in form submitted on a page whose stored cart holds "Cap":
once the payment timer, the last pending one, has fired, the slot is absent. -/
theorem successful_checkout_clears_the_cart_witness :
    (fireNth 1 (handleCheckoutSubmit
      (pageWith [{ name := "Cap", price := "$7.50", image := "", quantity := 4 }])
      { name := "Ada", email := "ada@example.org", address := "1 Main St",
        payment := "card" }).world).slot = Slot.absent :=
  (successful_checkout_clears_the_cart
    (pageWith [{ name := "Cap", price := "$7.50", image := "", quantity := 4 }])
    { name := "Ada", email := "ada@example.org", address := "1 Main St", payment := "card" }
    (by
      unfold missingRequired
      decide)).2.2.1

end StyleMart
